import Mathlib

/-!
Verification of the viper-remote-provider repository: a provider registry,
a GitHub-backed configuration manager with an ETag-polling watch loop, and
the bridge adapting both to the host configuration library's remote-provider
contract.

The Go sources are shallowly embedded: network calls (the GitHub
`GetContents` call, the legacy crypt backend constructors, the PEM key-file
load, the keyring file open) are passed in as explicit outcomes or outcome
functions, and channels are modelled by the data that flows on them plus the
structural facts (capacity, presence of a receiver) that decide blocking.
-/

namespace ViperRemote

/-! ## GitHub option (provider/github/option.go, Validate in the github package) -/

/-- `github.Option`: `time.Duration` is an integer nanosecond count, embedded
as `Int`. -/
structure GithubOption where
  Owner : String
  Repository : String
  Branch : String
  Path : String
  Token : String
  PemFilePath : String
  PollingInterval : Int
deriving DecidableEq, Repr

/-- One `time.Second` in nanoseconds, the unit of `time.Duration`. -/
def timeSecond : Int := 1000000000

/-- `(*Option).Validate` from the github package, clause for clause: each
missing required field returns the corresponding error message; the receiver
is never written, so the embedding is a pure function of the option. -/
def GithubOption.Validate (o : GithubOption) : Option String :=
  if o.Owner = "" then some "owner is required"
  else if o.Repository = "" then some "repository is required"
  else if o.Path = "" then some "path is required"
  else if o.Token = "" ∧ o.PemFilePath = "" then
    some "either token or pem file path is required"
  else none

/-! ## GitHub config manager (provider/github/manager.go) -/

/-- Which underlying client `NewGithubConfigManager` built: an installation
transport from a PEM key file, or a token-authenticated client. -/
inductive ClientKind where
  | pemClient
  | tokenClient (token : String)
deriving DecidableEq, Repr

/-- `github.ConfigManager`: the client plus the (possibly
interval-defaulted) option it was built from. -/
structure GithubConfigManager where
  client : ClientKind
  option : GithubOption
deriving DecidableEq, Repr

/-- `NewGithubConfigManager`. The PEM key-file load
(`ghinstallation.NewKeyFromFile`) is an external file/parse operation,
passed in as its outcome `pemLoad`; it is consulted only when `PemFilePath`
is non-empty, exactly as in the source. After the client is built the
constructor defaults a zero `PollingInterval` to `60 * time.Second` and
stores the option. -/
def NewGithubConfigManager (o : GithubOption) (pemLoad : Except String Unit) :
    Except String GithubConfigManager :=
  match (if o.PemFilePath ≠ "" then pemLoad.map (fun _ => ClientKind.pemClient)
         else .ok (ClientKind.tokenClient o.Token)) with
  | .error e => .error e
  | .ok client =>
      let o' := if o.PollingInterval = 0
                then { o with PollingInterval := 60 * timeSecond } else o
      .ok ⟨client, o'⟩

/-- Outcome of one `client.Repositories.GetContents` call, the repository's
"remote content source". On success the wrapped HTTP response is present, so
the ETag header read reduces to the header's value, `""` when the header is
absent; `content` is `none` when the API returned no file content object
(nil pointer), and otherwise carries the result of `content.GetContent()`
(decoded string, or a decode error). -/
inductive FetchResult where
  | failure (e : String)
  | success (content : Option (Except String String)) (etag : String)
deriving Repr

/-- `config.Response` from the crypt package: `Value []byte` and
`Error error`, each possibly absent. -/
structure Response where
  value : Option String
  error : Option String
deriving DecidableEq, Repr

/-- `(*ConfigManager).Get`: Go returns the pair `([]byte, error)`; embedded
as `(Option bytes, Option error)`. A failed call returns the error; a nil
content object returns `(nil, nil)`; otherwise `GetContent()`'s decode
result is returned. -/
def GithubConfigManager.Get (r : FetchResult) : Option String × Option String :=
  match r with
  | .failure e => (none, some e)
  | .success none _ => (none, none)
  | .success (some (.error e)) _ => (none, some e)
  | .success (some (.ok s)) _ => (some s, none)

/-- `(*ConfigManager).fetchAndNotify`: given the fetch outcome and the
stored ETag, returns the new stored ETag and the responses sent on the
channel during this call.
  * fetch error: send the error response, keep the ETag (the 5-second
    backoff sleep has no data content);
  * fetch success: read the new ETag from the response header; only when it
    is non-empty and differs from the stored one, and the content object is
    non-nil, decode it — on decode success send the changed value and store
    the new ETag, on decode error send the error response; in every other
    case send nothing; the stored ETag is kept in all of these cases. -/
def fetchAndNotify (r : FetchResult) (etag : String) : String × List Response :=
  match r with
  | .failure e => (etag, [⟨none, some e⟩])
  | .success content newEtag =>
      if newEtag ≠ "" ∧ newEtag ≠ etag then
        match content with
        | some (.ok s) => (newEtag, [⟨some s, none⟩])
        | some (.error e) => (etag, [⟨none, some e⟩])
        | none => (etag, [])
      else (etag, [])

/-- The body of the `Watch` goroutine, run over a finite schedule of fetch
outcomes (the initial fetch followed by one fetch per ticker tick, up to
cancellation): threads the stored ETag through `fetchAndNotify` and records
the responses each fetch emitted. -/
def watchRun (etag : String) : List FetchResult → String × List (List Response)
  | [] => (etag, [])
  | r :: rs =>
      let step := fetchAndNotify r etag
      let rest := watchRun step.1 rs
      (rest.1, step.2 :: rest.2)

/-- `Watch` declares `var etag string`, so the loop starts from the empty
stored token; the head of the schedule is the initial fetch performed before
the first ticker tick. -/
def watchOutputs (results : List FetchResult) : List (List Response) :=
  (watchRun "" results).2

/-- All responses emitted on the watch channel, in order. -/
def watchEmissions (results : List FetchResult) : List Response :=
  (watchOutputs results).flatten

/-- A response is a Changed snapshot when it carries a value. -/
def countChanged (l : List Response) : Nat :=
  (l.filter (fun r => r.value.isSome)).length

/-! ## Provider registry (provider/registry.go, provider/types.go)

The registry is generic over the options type `O` and the manager type `M`
(`provider.Options` and `provider.ViperConfigManager` are interfaces). The
`Options` interface's `Validate` method is passed as an explicit function,
a dictionary for the interface. The Go map is embedded as a function from
the key type to an optional registration; under the registry's
readers-writer lock every operation is sequential, which is what the
functional embedding captures. -/

/-- `provider.ProviderRegistration`. -/
structure Registration (O M : Type) where
  Factory : O → Except String M
  Manager : M

/-- `provider.ProviderRegistry`: the `providers` map. -/
structure ProviderRegistry (O M : Type) where
  providers : String → Option (Registration O M)

/-- Error of `(*ProviderRegistry).GetManager`, produced by
`fmt.Errorf("provider %s not registered", providerType)`. -/
inductive RegistryErr where
  | notRegistered (id : String)
deriving DecidableEq, Repr

/-- `(*ProviderRegistry).RegisterProvider`: validate the options; on a
validation error return `invalid options: ...` with the map untouched; then
run the factory; on a factory error return `failed to create manager: ...`
with the map untouched; otherwise store `{Factory, Manager}` under the id,
replacing any previous entry. Go mutates the registry and returns only the
error; the embedding returns the resulting registry together with the
error. -/
def RegisterProvider (r : ProviderRegistry O M) (id : String) (o : O)
    (validate : O → Option String) (factory : O → Except String M) :
    ProviderRegistry O M × Option String :=
  match validate o with
  | some e => (r, some ("invalid options: " ++ e))
  | none =>
      match factory o with
      | .error e => (r, some ("failed to create manager: " ++ e))
      | .ok m =>
          (⟨fun id' => if id' = id then some ⟨factory, m⟩ else r.providers id'⟩,
           none)

/-- `(*ProviderRegistry).GetManager`. -/
def GetManager (r : ProviderRegistry O M) (id : String) : Except RegistryErr M :=
  match r.providers id with
  | some reg => .ok reg.Manager
  | none => .error (.notRegistered id)

/-- `(*ProviderRegistry).IsRegistered`. -/
def IsRegistered (r : ProviderRegistry O M) (id : String) : Bool :=
  (r.providers id).isSome

/-! ## Bridge (remote.go) -/

/-- `viper.RemoteProvider`, the host's descriptor: the four accessors the
bridge reads. -/
structure RemoteProviderDesc where
  provider : String
  endpoint : String
  path : String
  secretKeyring : String
deriving DecidableEq, Repr

/-- Which legacy crypt backend the fallback `getConfigManager` selects by
string match on the descriptor's provider name. Both the with-keyring and
the keyring-less `switch` statements use the same four cases with a Consul
default. -/
inductive LegacyKind where
  | etcd
  | etcd3
  | firestore
  | nats
  | consul
deriving DecidableEq, Repr

/-- The provider-name `switch` of the package-level `getConfigManager`:
`"etcd"`, `"etcd3"`, `"firestore"`, `"nats"`, and a Consul default. -/
def selectLegacyKind (p : String) : LegacyKind :=
  match p with
  | "etcd" => .etcd
  | "etcd3" => .etcd3
  | "firestore" => .firestore
  | "nats" => .nats
  | _ => .consul

/-- The package-level legacy `getConfigManager` of remote.go. External
effects are passed in as outcomes: `openKeyring` is the result of
`os.Open(rp.SecretKeyring())`, consulted only when the keyring field is
non-empty, and `mkLegacy kind withKeyring` is the outcome of the selected
crypt constructor (`New...ConfigManager` with a keyring, or
`NewStandard...ConfigManager` without). `CM` is the abstract
`crypt.ConfigManager` type. -/
def legacyGetConfigManager (rp : RemoteProviderDesc)
    (openKeyring : Except String Unit)
    (mkLegacy : LegacyKind → Bool → Except String CM) : Except String CM :=
  if rp.secretKeyring ≠ "" then
    match openKeyring with
    | .error e => .error e
    | .ok _ => mkLegacy (selectLegacyKind rp.provider) true
  else
    mkLegacy (selectLegacyKind rp.provider) false

/-- `(remoteConfigProvider).getConfigManager`: consult the registry first;
only when `IsRegistered` is false fall back to the legacy
`getConfigManager`. Registry-side errors surface on the left, legacy
construction errors on the right; a registered manager comes back as
`.inl`, a legacy manager as `.inr`. -/
def remoteGetConfigManager (reg : ProviderRegistry O M) (rp : RemoteProviderDesc)
    (openKeyring : Except String Unit)
    (mkLegacy : LegacyKind → Bool → Except String CM) :
    Except (RegistryErr ⊕ String) (M ⊕ CM) :=
  if IsRegistered reg rp.provider then
    match GetManager reg rp.provider with
    | .ok m => .ok (.inl m)
    | .error e => .error (.inl e)
  else
    match legacyGetConfigManager rp openKeyring mkLegacy with
    | .ok cm => .ok (.inr cm)
    | .error e => .error (.inr e)

/-! ## WatchChannel failure path (remote.go lines 68-76)

Channels are modelled by the structural facts that decide the claims: what
was sent on the response stream and whether it was closed, and, for the
cancellation channel, its buffer capacity and whether any goroutine ever
receives from it. A send on a channel with no free buffer capacity and no
receiver blocks its sender forever — the Go channel-send semantics. -/

/-- The response stream the bridge hands back to the host: the responses
sent on it, and whether it was closed. -/
structure RespStream where
  items : List Response
  closed : Bool
deriving DecidableEq, Repr

/-- A `chan bool` as the blocking analysis needs it: `make(chan bool)` has
capacity 0; `hasReceiver` records whether any goroutine receives from it. -/
structure BoolChan where
  capacity : Nat
  hasReceiver : Bool
deriving DecidableEq, Repr

/-- A send on a Go channel blocks its sender forever exactly when the
channel has no buffer space and no goroutine ever receives from it. -/
def sendBlocksForever (c : BoolChan) : Bool :=
  c.capacity == 0 && !c.hasReceiver

/-- The manager-resolution-failure branch of
`(remoteConfigProvider).WatchChannel`: build a response channel with buffer
capacity 1, send the single error-valued response, close it, and return it
together with a fresh `make(chan bool)` — capacity 0 — from which no
goroutine ever receives. -/
def watchChannelOnResolutionFailure (e : String) : RespStream × BoolChan :=
  (⟨[⟨none, some e⟩], true⟩, ⟨0, false⟩)

/-! ## Theorems -/

/-- A failed fetch sends exactly the error response and keeps the ETag. -/
theorem fetchAndNotify_failure (e etag : String) :
    fetchAndNotify (.failure e) etag = (etag, [⟨none, some e⟩]) := rfl

/-- A successful fetch whose ETag is non-empty and differs from the stored
one, with decodable content, sends the changed value and stores the ETag. -/
theorem fetchAndNotify_changed (etag newEtag v : String)
    (h1 : newEtag ≠ "") (h2 : newEtag ≠ etag) :
    fetchAndNotify (.success (some (.ok v)) newEtag) etag =
      (newEtag, [⟨some v, none⟩]) := by
  simp [fetchAndNotify, h1, h2]

/-- A successful fetch whose ETag equals the stored one sends nothing and
keeps the ETag, whatever the content was. -/
theorem fetchAndNotify_same (etag : String)
    (content : Option (Except String String)) :
    fetchAndNotify (.success content etag) etag = (etag, []) := by
  simp [fetchAndNotify]

/-- C7: for every GitHub Option value, `Validate()` returns nil exactly when
Owner, Repository and Path are all non-empty and at least one of Token or
PemFilePath is non-empty. Validate is embedded as a pure function of the
option — the Go method never writes through its receiver — so it has no
side effects by construction. -/
theorem github_option_validate_iff (o : GithubOption) :
    o.Validate = none ↔
      o.Owner ≠ "" ∧ o.Repository ≠ "" ∧ o.Path ≠ "" ∧
        (o.Token ≠ "" ∨ o.PemFilePath ≠ "") := by
  unfold GithubOption.Validate
  split_ifs with h1 h2 h3 h4 <;> simp_all
  tauto

/-- C8: whenever the Manager constructor succeeds, the stored option's
polling interval is 60 seconds when the given option's interval was zero and
is the given interval otherwise; with a non-zero interval the option is
stored entirely unchanged. -/
theorem new_github_manager_interval_default (o : GithubOption)
    (pl : Except String Unit) (cm : GithubConfigManager)
    (h : NewGithubConfigManager o pl = .ok cm) :
    cm.option.PollingInterval =
      (if o.PollingInterval = 0 then 60 * timeSecond else o.PollingInterval) ∧
    (o.PollingInterval ≠ 0 → cm.option = o) := by
  unfold NewGithubConfigManager at h
  split at h
  · exact absurd h (by simp)
  · rw [Except.ok.injEq] at h
    subst h
    constructor
    · by_cases hz : o.PollingInterval = 0 <;> simp [hz]
    · intro hz
      simp [hz]

/-- Closed instance of C8: a token-authenticated option with zero interval
gets the 60-second default, and one with a 10-second interval is stored
unchanged. -/
theorem new_github_manager_interval_default_witness :
    ((⟨.tokenClient "t", ⟨"o", "r", "", "p", "t", "", 60 * timeSecond⟩⟩ :
        GithubConfigManager).option.PollingInterval =
      if (0 : Int) = 0 then 60 * timeSecond else (0 : Int)) ∧
    ((0 : Int) ≠ 0 →
      (⟨.tokenClient "t", ⟨"o", "r", "", "p", "t", "", 60 * timeSecond⟩⟩ :
        GithubConfigManager).option = ⟨"o", "r", "", "p", "t", "", 0⟩) :=
  new_github_manager_interval_default ⟨"o", "r", "", "p", "t", "", 0⟩ (.ok ())
    ⟨.tokenClient "t", ⟨"o", "r", "", "p", "t", "", 60 * timeSecond⟩⟩
    (by simp [NewGithubConfigManager, timeSecond])

/-- C1, counterexample: the first fetch's result is not emitted
unconditionally — a successful initial fetch whose response carries content
`"a"` but an empty ETag header emits nothing at all, so the stream has no
first Snapshot for it. -/
theorem watch_first_emission_not_unconditional :
    watchEmissions [.success (some (.ok "a")) ""] = [] := by decide

/-- C1, amended: when Watch starts, the initial fetch is processed before
any ticker tick, against the empty stored token; if it fails, exactly one
error Snapshot is emitted; if it succeeds with a non-empty validation token
and decodable content, exactly one Changed Snapshot is emitted and its token
recorded; a successful initial fetch with an empty token or nil content
emits nothing. -/
theorem watch_initial_fetch (r : FetchResult) (rs : List FetchResult) :
    watchOutputs (r :: rs) =
      (fetchAndNotify r "").2 :: (watchRun (fetchAndNotify r "").1 rs).2 ∧
    (∀ e, fetchAndNotify (.failure e) "" = ("", [⟨none, some e⟩])) ∧
    (∀ t v, t ≠ "" →
      fetchAndNotify (.success (some (.ok v)) t) "" = (t, [⟨some v, none⟩])) ∧
    (∀ c, fetchAndNotify (.success c "") "" = ("", [])) ∧
    (∀ t, fetchAndNotify (.success none t) "" = ("", [])) := by
  refine ⟨rfl, fun e => rfl, fun t v ht => fetchAndNotify_changed "" t v ht ht,
    fun c => fetchAndNotify_same "" c, fun t => ?_⟩
  simp [fetchAndNotify]

/-- Closed instance of C1 (amended): a failing initial fetch emits its error
first; an initial fetch with token `"E"` emits its value and records `"E"`. -/
theorem watch_initial_fetch_witness :
    watchOutputs (.failure "e" :: []) =
      (fetchAndNotify (.failure "e") "").2 ::
        (watchRun (fetchAndNotify (.failure "e") "").1 []).2 ∧
    fetchAndNotify (.failure "e") "" = ("", [⟨none, some "e"⟩]) ∧
    fetchAndNotify (.success (some (.ok "v")) "E") "" = ("E", [⟨some "v", none⟩]) :=
  ⟨(watch_initial_fetch (.failure "e") []).1,
   (watch_initial_fetch (.failure "e") []).2.1 "e",
   (watch_initial_fetch (.failure "e") []).2.2.1 "E" "v" (by decide)⟩

/-- C2, counterexample: a successful fetch whose validation token (empty
ETag header) differs from the stored token `"A"` emits nothing and keeps
`"A"`, contradicting "differs from the stored token emits exactly one
Changed Snapshot and updates the stored token". -/
theorem fetch_differing_empty_token_no_emission :
    fetchAndNotify (.success (some (.ok "v")) "") "A" = ("A", []) ∧
    ("" : String) ≠ "A" := by decide

/-- C2, amended: a successful fetch with a non-empty validation token
differing from the stored one and decodable content emits exactly one
Changed Snapshot with the fetched bytes and stores the new token; a
successful fetch whose token equals the stored one emits nothing and keeps
it; and for the token sequence [A, A, B, B, C] with non-empty pairwise
distinct consecutive tokens the loop emits exactly the three Changed
snapshots, hence exactly 2 Changed emissions after the first. -/
theorem watch_changed_on_new_token :
    (∀ etag t v, t ≠ "" → t ≠ etag →
      fetchAndNotify (.success (some (.ok v)) t) etag = (t, [⟨some v, none⟩])) ∧
    (∀ etag c, fetchAndNotify (.success c etag) etag = (etag, [])) ∧
    (∀ a b c va vb vc, a ≠ "" → b ≠ "" → c ≠ "" → a ≠ b → b ≠ c →
      watchEmissions [.success (some (.ok va)) a, .success (some (.ok va)) a,
          .success (some (.ok vb)) b, .success (some (.ok vb)) b,
          .success (some (.ok vc)) c] =
        [⟨some va, none⟩, ⟨some vb, none⟩, ⟨some vc, none⟩] ∧
      countChanged (List.tail (watchEmissions
          [.success (some (.ok va)) a, .success (some (.ok va)) a,
           .success (some (.ok vb)) b, .success (some (.ok vb)) b,
           .success (some (.ok vc)) c])) = 2) := by
  refine ⟨fun etag t v h1 h2 => fetchAndNotify_changed etag t v h1 h2,
    fun etag c => fetchAndNotify_same etag c, ?_⟩
  intro a b c va vb vc ha hb hc hab hbc
  have s1 := fetchAndNotify_changed "" a va ha ha
  have s2 := fetchAndNotify_same a (some (.ok va))
  have s3 := fetchAndNotify_changed a b vb hb (Ne.symm hab)
  have s4 := fetchAndNotify_same b (some (.ok vb))
  have s5 := fetchAndNotify_changed b c vc hc (Ne.symm hbc)
  constructor
  · simp [watchEmissions, watchOutputs, watchRun, s1, s2, s3, s4, s5]
  · simp [watchEmissions, watchOutputs, watchRun, s1, s2, s3, s4, s5,
      countChanged]

/-- Closed instance of C2 (amended): concrete changed, unchanged and
[A, A, B, B, C] runs. -/
theorem watch_changed_on_new_token_witness :
    fetchAndNotify (.success (some (.ok "v")) "B") "A" = ("B", [⟨some "v", none⟩]) ∧
    fetchAndNotify (.success (some (.ok "w")) "A") "A" = ("A", []) ∧
    watchEmissions [.success (some (.ok "va")) "A", .success (some (.ok "va")) "A",
        .success (some (.ok "vb")) "B", .success (some (.ok "vb")) "B",
        .success (some (.ok "vc")) "C"] =
      [⟨some "va", none⟩, ⟨some "vb", none⟩, ⟨some "vc", none⟩] ∧
    countChanged (List.tail (watchEmissions
        [.success (some (.ok "va")) "A", .success (some (.ok "va")) "A",
         .success (some (.ok "vb")) "B", .success (some (.ok "vb")) "B",
         .success (some (.ok "vc")) "C"])) = 2 :=
  ⟨watch_changed_on_new_token.1 "A" "B" "v" (by decide) (by decide),
   watch_changed_on_new_token.2.1 "A" (some (.ok "w")),
   (watch_changed_on_new_token.2.2 "A" "B" "C" "va" "vb" "vc" (by decide)
      (by decide) (by decide) (by decide) (by decide)).1,
   (watch_changed_on_new_token.2.2 "A" "B" "C" "va" "vb" "vc" (by decide)
      (by decide) (by decide) (by decide) (by decide)).2⟩

/-- C3, counterexample: stored token `"A"` after the first tick; the second
tick fails and emits its error; the third tick succeeds with a token (empty
ETag header) not equal to the stored `"A"`, yet emits nothing — so a later
successful fetch with a token differing from the stored one does not always
produce a Changed Snapshot. -/
theorem watch_failure_then_differing_token_no_changed :
    watchOutputs [.success (some (.ok "va")) "A", .failure "boom",
        .success (some (.ok "vc")) ""] =
      [[⟨some "va", none⟩], [⟨none, some "boom"⟩], []] ∧
    ("" : String) ≠ "A" := by decide

/-- C3, amended: a fetch failure at any tick emits exactly one Snapshot
carrying that error and leaves the stored validation token unchanged, and
the loop never terminates on it: the remaining ticks are processed, and a
later successful fetch with a non-empty token not equal to the stored one
(with decodable content) still produces a Changed Snapshot, after which the
loop continues from the new token. -/
theorem watch_failure_resilient :
    (∀ e etag, fetchAndNotify (.failure e) etag = (etag, [⟨none, some e⟩])) ∧
    (∀ etag e t v rs, t ≠ "" → t ≠ etag →
      (watchRun etag (.failure e :: .success (some (.ok v)) t :: rs)).2 =
        [⟨none, some e⟩] :: [⟨some v, none⟩] :: (watchRun t rs).2) := by
  refine ⟨fun e etag => rfl, ?_⟩
  intro etag e t v rs h1 h2
  simp [watchRun, fetchAndNotify_failure, fetchAndNotify_changed etag t v h1 h2]

/-- Closed instance of C3 (amended): after a failing tick on stored token
`"A"`, the loop processes a success with token `"B"` and emits its value. -/
theorem watch_failure_resilient_witness :
    fetchAndNotify (.failure "boom") "A" = ("A", [⟨none, some "boom"⟩]) ∧
    (watchRun "A" [.failure "boom", .success (some (.ok "v")) "B"]).2 =
      [⟨none, some "boom"⟩] :: [⟨some "v", none⟩] :: (watchRun "B" []).2 :=
  ⟨watch_failure_resilient.1 "boom" "A",
   watch_failure_resilient.2 "A" "boom" "B" "v" [] (by decide) (by decide)⟩

/-- C6: on a manager-resolution failure, `WatchChannel`'s returned stream
carries exactly one error-valued response and is closed (nothing more can
arrive), but the returned cancellation channel is `make(chan bool)` —
capacity 0 — and no goroutine ever receives from it, so a cancellation send
on it blocks the canceller forever: the code violates the claim's
non-blocking requirement. -/
theorem watch_channel_resolution_failure_blocks (e : String) :
    (watchChannelOnResolutionFailure e).1.items = [⟨none, some e⟩] ∧
    (watchChannelOnResolutionFailure e).1.closed = true ∧
    sendBlocksForever (watchChannelOnResolutionFailure e).2 = true :=
  ⟨rfl, rfl, rfl⟩

/-- C9: when the `GetContents` call returns no error but a nil content
object, `ConfigManager.Get` returns the pair `(nil, nil)`: a successful
result carrying no content, whatever the response's ETag was. -/
theorem github_get_nil_content_nil_error (etag : String) :
    GithubConfigManager.Get (.success none etag) = (none, none) := rfl

/-- C4: when the options' `Validate()` returns an error, `RegisterProvider`
returns the wrapped validation error with the registry unchanged, and the
result does not depend on the factory at all (the factory is never invoked);
when validation passes but the factory returns an error, the wrapped
construction error is returned and the registry is again unchanged; on any
failing registration `IsRegistered` answers for every id exactly as
before. -/
theorem register_provider_error_no_entry {O M : Type}
    (r : ProviderRegistry O M) (id : String) (o : O)
    (validate : O → Option String) (factory : O → Except String M) :
    (∀ e, validate o = some e →
      RegisterProvider r id o validate factory =
        (r, some ("invalid options: " ++ e)) ∧
      ∀ factory', RegisterProvider r id o validate factory' =
        (r, some ("invalid options: " ++ e))) ∧
    (∀ e, validate o = none → factory o = .error e →
      RegisterProvider r id o validate factory =
        (r, some ("failed to create manager: " ++ e))) ∧
    (∀ err, (RegisterProvider r id o validate factory).2 = some err →
      ∀ id', IsRegistered (RegisterProvider r id o validate factory).1 id' =
        IsRegistered r id') := by
  refine ⟨?_, ?_, ?_⟩
  · intro e he
    exact ⟨by simp [RegisterProvider, he], fun f' => by simp [RegisterProvider, he]⟩
  · intro e hv hf
    simp [RegisterProvider, hv, hf]
  · intro err herr id'
    cases hv : validate o with
    | some e => simp [RegisterProvider, hv]
    | none =>
        cases hf : factory o with
        | error e => simp [RegisterProvider, hv, hf]
        | ok m => simp [RegisterProvider, hv, hf] at herr

/-- Closed instance of C4: on an empty registry over `Unit` options and
`Nat` managers, a failing validation leaves the registry empty whatever the
factory, and a failing factory stores nothing either. -/
theorem register_provider_error_no_entry_witness :
    RegisterProvider (⟨fun _ => none⟩ : ProviderRegistry Unit Nat) "g" ()
        (fun _ => some "bad") (fun _ => .ok 1) =
      (⟨fun _ => none⟩, some ("invalid options: " ++ "bad")) ∧
    RegisterProvider (⟨fun _ => none⟩ : ProviderRegistry Unit Nat) "g" ()
        (fun _ => some "bad") (fun _ => .error "down") =
      (⟨fun _ => none⟩, some ("invalid options: " ++ "bad")) ∧
    RegisterProvider (⟨fun _ => none⟩ : ProviderRegistry Unit Nat) "g" ()
        (fun _ => none) (fun _ => .error "down") =
      (⟨fun _ => none⟩, some ("failed to create manager: " ++ "down")) ∧
    IsRegistered (RegisterProvider (⟨fun _ => none⟩ : ProviderRegistry Unit Nat)
        "g" () (fun _ => some "bad") (fun _ => .ok 1)).1 "g" =
      IsRegistered (⟨fun _ => none⟩ : ProviderRegistry Unit Nat) "g" :=
  ⟨((register_provider_error_no_entry ⟨fun _ => none⟩ "g" () (fun _ => some "bad")
      (fun _ => .ok 1)).1 "bad" rfl).1,
   ((register_provider_error_no_entry ⟨fun _ => none⟩ "g" () (fun _ => some "bad")
      (fun _ => .ok 1)).1 "bad" rfl).2 (fun _ => .error "down"),
   (register_provider_error_no_entry ⟨fun _ => none⟩ "g" () (fun _ => none)
      (fun _ => .error "down")).2.1 "down" rfl rfl,
   (register_provider_error_no_entry ⟨fun _ => none⟩ "g" () (fun _ => some "bad")
      (fun _ => .ok 1)).2.2 ("invalid options: " ++ "bad") rfl "g"⟩

/-- C5: a successful `RegisterProvider` immediately followed by `GetManager`
with the same id returns exactly the manager the factory produced; a second
successful registration under the same id makes the stored registration be
exactly the new factory/manager pair — replacement, not a merge — and
`GetManager` then returns the second manager. -/
theorem register_then_get_manager {O M : Type} (r : ProviderRegistry O M)
    (id : String) (o o₂ : O) (validate validate₂ : O → Option String)
    (factory factory₂ : O → Except String M) (m m₂ : M)
    (h1 : validate o = none) (h2 : factory o = .ok m)
    (h3 : validate₂ o₂ = none) (h4 : factory₂ o₂ = .ok m₂) :
    GetManager (RegisterProvider r id o validate factory).1 id = .ok m ∧
    (RegisterProvider (RegisterProvider r id o validate factory).1 id o₂
        validate₂ factory₂).1.providers id = some ⟨factory₂, m₂⟩ ∧
    GetManager (RegisterProvider (RegisterProvider r id o validate factory).1
        id o₂ validate₂ factory₂).1 id = .ok m₂ := by
  refine ⟨?_, ?_, ?_⟩ <;> simp [RegisterProvider, GetManager, h1, h2, h3, h4]

/-- Closed instance of C5: registering manager 1 then manager 2 under the
same id on an empty registry yields 1 from the first lookup and exactly the
second registration afterwards. -/
theorem register_then_get_manager_witness :
    GetManager (RegisterProvider (⟨fun _ => none⟩ : ProviderRegistry Unit Nat)
        "g" () (fun _ => none) (fun _ => .ok 1)).1 "g" = .ok 1 ∧
    (RegisterProvider (RegisterProvider
        (⟨fun _ => none⟩ : ProviderRegistry Unit Nat) "g" () (fun _ => none)
        (fun _ => .ok 1)).1 "g" () (fun _ => none)
        (fun _ => .ok 2)).1.providers "g" = some ⟨fun _ => .ok 2, 2⟩ ∧
    GetManager (RegisterProvider (RegisterProvider
        (⟨fun _ => none⟩ : ProviderRegistry Unit Nat) "g" () (fun _ => none)
        (fun _ => .ok 1)).1 "g" () (fun _ => none)
        (fun _ => .ok 2)).1 "g" = .ok 2 :=
  register_then_get_manager ⟨fun _ => none⟩ "g" () () (fun _ => none)
    (fun _ => none) (fun _ => .ok 1) (fun _ => .ok 2) 1 2 rfl rfl rfl rfl

/-- C10: for a descriptor whose provider id is not registered and whose
provider string is none of "etcd", "etcd3", "firestore", "nats", the
bridge's manager resolution falls through to the legacy default branch,
which selects the Consul constructor; and for every descriptor the bridge
never surfaces a registry not-registered error: a registered id resolves to
its manager, and an unregistered id takes the legacy path, whose errors are
construction errors. -/
theorem bridge_resolution_fallback {O M CM : Type}
    (reg : ProviderRegistry O M) (rp : RemoteProviderDesc)
    (okr : Except String Unit)
    (mkLegacy : LegacyKind → Bool → Except String CM) :
    (IsRegistered reg rp.provider = false →
      rp.provider ≠ "etcd" → rp.provider ≠ "etcd3" →
      rp.provider ≠ "firestore" → rp.provider ≠ "nats" →
      selectLegacyKind rp.provider = .consul ∧
      remoteGetConfigManager reg rp okr mkLegacy =
        (match legacyGetConfigManager rp okr mkLegacy with
         | .ok cm => .ok (.inr cm)
         | .error e => .error (.inr e))) ∧
    (∀ e, remoteGetConfigManager reg rp okr mkLegacy ≠ .error (.inl e)) := by
  constructor
  · intro hnr h1 h2 h3 h4
    refine ⟨?_, ?_⟩
    · unfold selectLegacyKind
      split <;> simp_all
    · simp only [remoteGetConfigManager, hnr, Bool.false_eq_true, if_false]
      cases hcm : legacyGetConfigManager rp okr mkLegacy <;> simp [hcm]
  · intro e
    cases hreg : reg.providers rp.provider with
    | some reg' =>
        simp [remoteGetConfigManager, IsRegistered, GetManager, hreg]
    | none =>
        simp only [remoteGetConfigManager, IsRegistered, hreg, Option.isSome_none,
          Bool.false_eq_true, if_false]
        cases hcm : legacyGetConfigManager rp okr mkLegacy <;> simp

/-- Closed instance of C10: provider `"zk"` on an empty registry falls back
to the Consul constructor, and no not-registered error surfaces. -/
theorem bridge_resolution_fallback_witness :
    (selectLegacyKind "zk" = .consul ∧
     remoteGetConfigManager (⟨fun _ => none⟩ : ProviderRegistry Unit Nat)
        ⟨"zk", "localhost", "p", ""⟩ (.ok ())
        (fun _ _ => (.ok 7 : Except String Nat)) =
      (match legacyGetConfigManager ⟨"zk", "localhost", "p", ""⟩ (.ok ())
          (fun _ _ => (.ok 7 : Except String Nat)) with
       | .ok cm => .ok (.inr cm)
       | .error e => .error (.inr e))) ∧
    remoteGetConfigManager (⟨fun _ => none⟩ : ProviderRegistry Unit Nat)
        ⟨"zk", "localhost", "p", ""⟩ (.ok ())
        (fun _ _ => (.ok 7 : Except String Nat)) ≠
      .error (.inl (.notRegistered "zk")) :=
  ⟨(bridge_resolution_fallback ⟨fun _ => none⟩ ⟨"zk", "localhost", "p", ""⟩
      (.ok ()) (fun _ _ => .ok 7)).1 rfl (by decide) (by decide) (by decide)
      (by decide),
   (bridge_resolution_fallback ⟨fun _ => none⟩ ⟨"zk", "localhost", "p", ""⟩
      (.ok ()) (fun _ _ => .ok 7)).2 (.notRegistered "zk")⟩

end ViperRemote
